import Mathlib

/-!
Shallow embedding of the Wildberries position-parser core
(`src/services/wildberries_service.py`, `src/services/proxy_service.py`,
`src/utils/retry.py`, `src/models/models.py`).

External effects (HTTP responses, the MD5 library call's input string, clock
readings) are passed in explicitly as function arguments, so every embedded
operation is a pure, executable Lean function mirroring the Python control
flow.
-/

namespace WB

/-! ## ShardResolver: `WildberriesService._resolve_basket_id` and URL builders -/

/-- The if/elif chain of `WildberriesService._resolve_basket_id` over
`s = nmid // 100000`: ascending bounds, first matching bound wins, catch-all
`"26"`. -/
def resolveShard (s : Nat) : String :=
  if s ≤ 143 then "01"
  else if s ≤ 287 then "02"
  else if s ≤ 431 then "03"
  else if s ≤ 719 then "04"
  else if s ≤ 1007 then "05"
  else if s ≤ 1061 then "06"
  else if s ≤ 1115 then "07"
  else if s ≤ 1169 then "08"
  else if s ≤ 1313 then "09"
  else if s ≤ 1601 then "10"
  else if s ≤ 1655 then "11"
  else if s ≤ 1919 then "12"
  else if s ≤ 2045 then "13"
  else if s ≤ 2189 then "14"
  else if s ≤ 2405 then "15"
  else if s ≤ 2621 then "16"
  else if s ≤ 2837 then "17"
  else if s ≤ 3053 then "18"
  else if s ≤ 3269 then "19"
  else if s ≤ 3485 then "20"
  else if s ≤ 3701 then "21"
  else if s ≤ 3917 then "22"
  else if s ≤ 4133 then "23"
  else if s ≤ 4349 then "24"
  else if s ≤ 4565 then "25"
  else "26"

/-- Model of `WildberriesService._resolve_basket_id`. -/
def resolve_basket_id (nmid : Nat) : String :=
  resolveShard (nmid / 100000)

/-- The spec's fixed ascending bound table (§3 ShardAddress): pairs of
(upperBoundInclusive, shardCode). -/
def basketBounds : List (Nat × String) :=
  [(143, "01"), (287, "02"), (431, "03"), (719, "04"), (1007, "05"),
   (1061, "06"), (1115, "07"), (1169, "08"), (1313, "09"), (1601, "10"),
   (1655, "11"), (1919, "12"), (2045, "13"), (2189, "14"), (2405, "15"),
   (2621, "16"), (2837, "17"), (3053, "18"), (3269, "19"), (3485, "20"),
   (3701, "21"), (3917, "22"), (4133, "23"), (4349, "24"), (4565, "25")]

/-- Spec-side shard choice: first matching bound of the ascending table,
catch-all `"26"` for values above the last bound. -/
def shardFromTable (s : Nat) : String :=
  match basketBounds.find? (fun p => s ≤ p.1) with
  | some p => p.2
  | none => "26"

/-- Model of `WildberriesService.get_card_url` with `config.WB_REGION` passed
explicitly. -/
def get_card_url (region : String) (article_id : Nat) : String :=
  let vol := toString (article_id / 100000)
  let part := toString (article_id / 1000)
  let basket_number := resolve_basket_id article_id
  "https://basket-" ++ basket_number ++ ".wbbasket.ru/vol" ++ vol ++ "/part" ++
    part ++ "/" ++ toString article_id ++ "/info/" ++ region ++ "/card.json"

/-- Model of `WildberriesService.get_image_url`. -/
def get_image_url (article_id : Nat) : String :=
  let vol := toString (article_id / 100000)
  let part := toString (article_id / 1000)
  let basket_number := resolve_basket_id article_id
  "https://basket-" ++ basket_number ++ ".wbbasket.ru/vol" ++ vol ++ "/part" ++
    part ++ "/" ++ toString article_id ++ "/images/c516x688/1.webp"

/-! ## PositionScanner: `WildberriesService.find_product_position`

The search feed is abstracted as `feed : Nat → Option (List Nat)`:
`feed page = none` models a failed request or a response missing the
`data.products` envelope; `feed page = some ids` models the list of product
ids of `data.products` in page order. -/

/-- Inner `for product in products` loop: increment the running counter for
each stub, return the counter on the first id equal to `product_id`. -/
def scanPage (product_id : Nat) : Nat → List Nat → Option Nat
  | _, [] => none
  | pos, p :: rest =>
    if p = product_id then some (pos + 1) else scanPage product_id (pos + 1) rest

/-- The page loop of `find_product_position`, instrumented with the number of
search-page requests issued.  Arguments: remaining iterations, current page
number, running counter, requests so far.  Returns (result, total requests). -/
def findPositionGo (feed : Nat → Option (List Nat)) (product_id : Nat) :
    Nat → Nat → Nat → Nat → Int × Nat
  | 0, _, _, requests => (-1, requests)
  | remaining + 1, page, pos, requests =>
    match feed page with
    | none => (-1, requests + 1)
    | some products =>
      match scanPage product_id pos products with
      | some r => ((r : Int), requests + 1)
      | none =>
        if products.isEmpty then (-1, requests + 1)
        else findPositionGo feed product_id remaining (page + 1)
          (pos + products.length) (requests + 1)

/-- Model of `WildberriesService.find_product_position`: pages run from 1 to
`max_search_pages`, the counter starts at 0, `-1` is the not-found
sentinel. -/
def find_product_position (feed : Nat → Option (List Nat)) (max_search_pages : Nat)
    (product_id : Nat) : Int :=
  (findPositionGo feed product_id max_search_pages 1 0 0).1

/-- Number of search-page requests `find_product_position` issues. -/
def find_position_requests (feed : Nat → Option (List Nat)) (max_search_pages : Nat)
    (product_id : Nat) : Nat :=
  (findPositionGo feed product_id max_search_pages 1 0 0).2

/-! ## MD5 (model of Python's `hashlib.md5`, RFC 1321) and
`PiaProxyService.generate_session_id` -/

/-- Truncate to 32 bits. -/
def m32 (x : Nat) : Nat := x % 4294967296

/-- Left rotation of a 32-bit word (argument assumed < 2^32, 0 < s < 32). -/
def rotl32 (x s : Nat) : Nat := (x * 2 ^ s + x / 2 ^ (32 - s)) % 4294967296

/-- Bitwise complement of a 32-bit word. -/
def not32 (x : Nat) : Nat := 4294967295 - x % 4294967296

/-- The per-step nonlinear function of MD5 (F, G, H, I by round). -/
def md5F (i b c d : Nat) : Nat :=
  if i < 16 then (b &&& c) ||| (not32 b &&& d)
  else if i < 32 then (d &&& b) ||| (not32 d &&& c)
  else if i < 48 then b ^^^ c ^^^ d
  else c ^^^ (b ||| not32 d)

/-- Message-word index used at step `i`. -/
def md5g (i : Nat) : Nat :=
  if i < 16 then i
  else if i < 32 then (5 * i + 1) % 16
  else if i < 48 then (3 * i + 5) % 16
  else (7 * i) % 16

/-- Per-step left-rotation amounts. -/
def md5s : List Nat :=
  [7, 12, 17, 22, 7, 12, 17, 22, 7, 12, 17, 22, 7, 12, 17, 22,
   5, 9, 14, 20, 5, 9, 14, 20, 5, 9, 14, 20, 5, 9, 14, 20,
   4, 11, 16, 23, 4, 11, 16, 23, 4, 11, 16, 23, 4, 11, 16, 23,
   6, 10, 15, 21, 6, 10, 15, 21, 6, 10, 15, 21, 6, 10, 15, 21]

/-- Per-step additive constants `floor(2^32 * abs(sin(i+1)))`. -/
def md5K : List Nat :=
  [0xd76aa478, 0xe8c7b756, 0x242070db, 0xc1bdceee,
   0xf57c0faf, 0x4787c62a, 0xa8304613, 0xfd469501,
   0x698098d8, 0x8b44f7af, 0xffff5bb1, 0x895cd7be,
   0x6b901122, 0xfd987193, 0xa679438e, 0x49b40821,
   0xf61e2562, 0xc040b340, 0x265e5a51, 0xe9b6c7aa,
   0xd62f105d, 0x02441453, 0xd8a1e681, 0xe7d3fbc8,
   0x21e1cde6, 0xc33707d6, 0xf4d50d87, 0x455a14ed,
   0xa9e3e905, 0xfcefa3f8, 0x676f02d9, 0x8d2a4c8a,
   0xfffa3942, 0x8771f681, 0x6d9d6122, 0xfde5380c,
   0xa4beea44, 0x4bdecfa9, 0xf6bb4b60, 0xbebfbc70,
   0x289b7ec6, 0xeaa127fa, 0xd4ef3085, 0x04881d05,
   0xd9d4d039, 0xe6db99e5, 0x1fa27cf8, 0xc4ac5665,
   0xf4292244, 0x432aff97, 0xab9423a7, 0xfc93a039,
   0x655b59c3, 0x8f0ccc92, 0xffeff47d, 0x85845dd1,
   0x6fa87e4f, 0xfe2ce6e0, 0xa3014314, 0x4e0811a1,
   0xf7537e82, 0xbd3af235, 0x2ad7d2bb, 0xeb86d391]

/-- Little-endian byte expansion of `x` to `n` bytes. -/
def toLEBytes : Nat → Nat → List Nat
  | 0, _ => []
  | n + 1, x => x % 256 :: toLEBytes n (x / 256)

/-- Read a little-endian 32-bit word from up to 4 bytes. -/
def leWord (bs : List Nat) : Nat := bs.foldr (fun b acc => b + 256 * acc) 0

/-- The 16 message words of a 64-byte block. -/
def blockWords (block : List Nat) : List Nat :=
  (List.range 16).map (fun i => leWord ((block.drop (4 * i)).take 4))

/-- MD5 state type: the four chaining words. -/
abbrev MD5State := Nat × Nat × Nat × Nat

/-- One of the 64 MD5 steps. -/
def md5Step (M : List Nat) (st : MD5State) (i : Nat) : MD5State :=
  let (a, b, c, d) := st
  let tmp := m32 (a + md5F i b c d + md5K.getD i 0 + M.getD (md5g i) 0)
  (d, m32 (b + rotl32 tmp (md5s.getD i 0)), b, c)

/-- Compress one 64-byte block into the state. -/
def md5Block (st : MD5State) (block : List Nat) : MD5State :=
  let M := blockWords block
  let (a, b, c, d) := (List.range 64).foldl (md5Step M) st
  (m32 (st.1 + a), m32 (st.2.1 + b), m32 (st.2.2.1 + c), m32 (st.2.2.2 + d))

/-- Merkle–Damgård padding: a 0x80 byte, zeros to 56 mod 64, then the
bit length as a 64-bit little-endian quantity. -/
def md5Pad (msg : List Nat) : List Nat :=
  let L := msg.length
  let zeros := (120 - (L + 1) % 64) % 64
  msg ++ 0x80 :: List.replicate zeros 0 ++ toLEBytes 8 (8 * L % 2 ^ 64)

/-- The 16 digest bytes of MD5 over a byte sequence. -/
def md5Bytes (msg : List Nat) : List Nat :=
  let padded := md5Pad msg
  let nblocks := padded.length / 64
  let st := (List.range nblocks).foldl
    (fun st i => md5Block st ((padded.drop (64 * i)).take 64))
    (0x67452301, 0xefcdab89, 0x98badcfe, 0x10325476)
  toLEBytes 4 st.1 ++ toLEBytes 4 st.2.1 ++ toLEBytes 4 st.2.2.1 ++ toLEBytes 4 st.2.2.2

/-- Lower-case hex digit. -/
def hexDigit (n : Nat) : Char :=
  if n < 10 then Char.ofNat (48 + n) else Char.ofNat (87 + n)

/-- Lower-case hex string of a byte list. -/
def bytesToHex (bs : List Nat) : String :=
  bs.foldl (fun s b => (s.push (hexDigit (b / 16 % 16))).push (hexDigit (b % 16))) ""

/-- UTF-8 bytes of a string (the encoding `str.encode()` uses in the source). -/
def strBytes (s : String) : List Nat := s.toUTF8.toList.map UInt8.toNat

/-- Model of `hashlib.md5(s.encode()).hexdigest()`. -/
def md5_hexdigest (s : String) : String := bytesToHex (md5Bytes (strBytes s))

/-- Model of `PiaProxyService.get_proxy_hash` with the clock reading and
`config.PROXY_TIMEOUT_MINUTES` passed explicitly (whole seconds; `int()`
truncation of the nonnegative float quotient is Nat division). -/
def get_proxy_hash (timeout_minutes user_id now_seconds : Nat) : String :=
  let normalized_time := now_seconds / (60 * timeout_minutes)
  toString user_id ++ "_" ++ toString normalized_time

/-- Model of `PiaProxyService.generate_session_id`: first 11 hex characters of the MD5
digest of the proxy hash string. -/
def generate_session_id (timeout_minutes user_id now_seconds : Nat) : String :=
  (md5_hexdigest (get_proxy_hash timeout_minutes user_id now_seconds)).take 11

/-! ## RetryPolicy: `async_retry.wrapper` (`src/utils/retry.py`)

The wrapped operation is abstracted as `ops : Nat → Except E A`, giving the
outcome of the attempt with that index (a raised retryable exception is
`Except.error`).  Backoff durations and jitter scaling change only how long
each `asyncio.sleep` lasts, never whether one happens, so the wrapper is
instrumented with the number of backoff delays performed. -/

/-- The `while True` loop of `async_retry.wrapper`, structurally recursive on
the retry slots still allowed (`max_retries - retries`).  Returns the final
outcome paired with the number of backoff delays performed. -/
def retryGo (ops : Nat → Except E A) : Nat → Nat → Nat → Except E A × Nat
  | attempt, delays, remaining =>
    match ops attempt with
    | .ok a => (.ok a, delays)
    | .error e =>
      match remaining with
      | 0 => (.error e, delays)
      | r + 1 => retryGo ops (attempt + 1) (delays + 1) r

/-- Model of `async_retry.wrapper` run to completion: attempt 0 first, at most
`max_retries` further attempts, one delay before each retry; the failure that
makes the counter exceed `max_retries` is re-raised without a delay. -/
def async_retry_run (max_retries : Nat) (ops : Nat → Except E A) : Except E A × Nat :=
  retryGo ops 0 0 max_retries

/-! ## Data model (`src/models/models.py`) -/

/-- Model of `models.ProductDetails`.  `price` and `rating` are floats in the source;
they are modelled as rationals, exact for the values the service computes. -/
structure ProductDetails where
  id : Nat
  name : String
  brand : String
  price : Rat
  rating : Rat
  feedbacks : Nat
  image_url : String
  url : String
deriving Repr, DecidableEq

/-- Model of `models.SearchResult`. -/
structure SearchResult where
  keyword : String
  product_position : Option Int
deriving Repr, DecidableEq

/-- Model of `models.KeywordAnalysisResult`. -/
structure KeywordAnalysisResult where
  product : ProductDetails
  found_keywords : List String
  search_results : List SearchResult
deriving Repr, DecidableEq

/-! ## `WildberriesService.extract_article_id`

`re.search(r'wildberries\.ru/catalog/(\d+)/detail\.aspx', url)`: leftmost
match of the literal prefix, a nonempty maximal digit run (no shorter run can
satisfy the following literal, which starts with a non-digit), and the literal
suffix. -/

/-- The literal characters before the digit group. -/
def catalogLit : List Char := "wildberries.ru/catalog/".toList

/-- The literal characters after the digit group. -/
def detailSuffix : List Char := "/detail.aspx".toList

/-- Decimal value of a digit run (`int(match.group(1))`). -/
def digitsToNat (ds : List Char) : Nat :=
  ds.foldl (fun n c => 10 * n + (c.toNat - 48)) 0

/-- Try to match the pattern starting exactly at the head of `cs`. -/
def matchArticleAt (cs : List Char) : Option Nat :=
  if catalogLit.isPrefixOf cs then
    let rest := cs.drop catalogLit.length
    let ds := rest.takeWhile Char.isDigit
    if ds.isEmpty then none
    else if detailSuffix.isPrefixOf (rest.drop ds.length) then some (digitsToNat ds)
    else none
  else none

/-- Scan for the leftmost match, as `re.search` does. -/
def searchArticle : List Char → Option Nat
  | [] => none
  | c :: rest =>
    match matchArticleAt (c :: rest) with
    | some n => some n
    | none => searchArticle rest

/-- Model of `WildberriesService.extract_article_id`. -/
def extract_article_id (url : String) : Option Nat := searchArticle url.toList

/-! ## `WildberriesService.get_product_details`

The HTTP response for the detail URL is abstracted: `none` models a failed
request or a body without the `data`/`products` envelope, `some` carries the
`data.products` array.  Each JSON field access with a possibly absent key is
an `Option` field. -/

/-- The `price` object of a size entry; `product` is the minor-unit price
(`price_data.get('product', 0)`). -/
structure PriceEntry where
  product? : Option Int
deriving Repr, DecidableEq

/-- One entry of the `sizes` array; `price?` is absent when `'price' not in
sizes[0]`. -/
structure SizeEntry where
  price? : Option PriceEntry
deriving Repr, DecidableEq

/-- One entry of `data.products`; `sizes? = none` models a missing `sizes`
key. -/
structure RawProduct where
  id? : Option Nat
  name? : Option String
  brand? : Option String
  sizes? : Option (List SizeEntry)
  reviewRating? : Option Rat
  feedbacks? : Option Nat
deriving Repr, DecidableEq

/-- The `data.products` array of the detail response. -/
structure DetailResponse where
  products : List RawProduct
deriving Repr, DecidableEq

/-- Lines 146–149: price of the first size entry in major units, defaulting
to 0 when `sizes` is missing or empty or its first entry has no `price`
(float division by 100 is exact rational division). -/
def product_price (product : RawProduct) : Rat :=
  match product.sizes? with
  | some (sz :: _) =>
    match sz.price? with
    | some price_data => ((price_data.product?.getD 0 : Int) : Rat) / 100
    | none => 0
  | _ => 0

/-- Model of `WildberriesService.get_product_details` with the detail-endpoint
response passed explicitly.  `if not article_id` is false exactly for
`some aid` with `aid ≠ 0`; an absent envelope or empty products array yields
`none`. -/
def get_product_details (detail_resp : Option DetailResponse)
    (product_url : String) : Option ProductDetails :=
  match extract_article_id product_url with
  | none => none
  | some article_id =>
    if article_id = 0 then none
    else
      match detail_resp with
      | none => none
      | some data =>
        match data.products with
        | [] => none
        | product :: _ =>
          some
            { id := product.id?.getD article_id
              name := product.name?.getD ("Товар " ++ toString article_id)
              brand := product.brand?.getD ""
              price := product_price product
              rating := product.reviewRating?.getD 0
              feedbacks := product.feedbacks?.getD 0
              image_url := get_image_url article_id
              url := product_url }

/-! ## AnalysisOrchestrator: `WildberriesService.analyze_product_keywords`

Collaborator responses are passed explicitly: `detail_resp` is the detail
endpoint's response and `feeds kw page` the search feed for keyword `kw`. -/

/-- The placeholder details built when no article id can be extracted
(lines 191–200). -/
def placeholder_details (product_url : String) : ProductDetails :=
  { id := 0, name := "Товар не найден", brand := "", price := 0, rating := 0,
    feedbacks := 0, image_url := "", url := product_url }

/-- The fallback details built when the detail fetch fails (lines 211–220). -/
def fallback_details (article_id : Nat) (product_url : String) : ProductDetails :=
  { id := article_id, name := "Товар " ++ toString article_id, brand := "",
    price := 0, rating := 0, feedbacks := 0,
    image_url := get_image_url article_id, url := product_url }

/-- Lines 207–240 of `analyze_product_keywords`: the path taken once a
nonzero article id has been extracted.  Fetch details with fallback, then,
per keyword in order, run the scanner and map nonpositive results to
`none`. -/
def analyze_core (detail_resp : Option DetailResponse)
    (feeds : String → Nat → Option (List Nat)) (max_search_pages : Nat)
    (article_id : Nat) (product_url : String) (keywords : List String) :
    KeywordAnalysisResult :=
  let product_details :=
    match get_product_details detail_resp product_url with
    | some pd => pd
    | none => fallback_details article_id product_url
  let search_results := keywords.map (fun keyword =>
    let position := find_product_position (feeds keyword) max_search_pages article_id
    { keyword := keyword
      product_position := if position > 0 then some position else none })
  { product := product_details, found_keywords := keywords,
    search_results := search_results }

/-- Model of `WildberriesService.analyze_product_keywords`.  `if not article_id` is
true for an absent match and for the extracted integer 0 (Python falsiness),
yielding the placeholder result with empty lists. -/
def analyze_product_keywords (detail_resp : Option DetailResponse)
    (feeds : String → Nat → Option (List Nat)) (max_search_pages : Nat)
    (product_url : String) (keywords : List String) : KeywordAnalysisResult :=
  let article_id := (extract_article_id product_url).getD 0
  if article_id = 0 then
    { product := placeholder_details product_url, found_keywords := [],
      search_results := [] }
  else
    analyze_core detail_resp feeds max_search_pages article_id product_url keywords

/-! # Theorems -/

/-- The if/elif chain agrees with first-match lookup in the ascending bound
table. -/
theorem resolveShard_eq_table (s : Nat) : resolveShard s = shardFromTable s := by
  by_cases h1 : s ≤ 143
  · simp [resolveShard, shardFromTable, basketBounds, List.find?, h1]
  by_cases h2 : s ≤ 287
  · simp [resolveShard, shardFromTable, basketBounds, List.find?, h1, h2]
  by_cases h3 : s ≤ 431
  · simp [resolveShard, shardFromTable, basketBounds, List.find?, h1, h2, h3]
  by_cases h4 : s ≤ 719
  · simp [resolveShard, shardFromTable, basketBounds, List.find?, h1, h2, h3, h4]
  by_cases h5 : s ≤ 1007
  · simp [resolveShard, shardFromTable, basketBounds, List.find?, h1, h2, h3, h4, h5]
  by_cases h6 : s ≤ 1061
  · simp [resolveShard, shardFromTable, basketBounds, List.find?, h1, h2, h3, h4, h5, h6]
  by_cases h7 : s ≤ 1115
  · simp [resolveShard, shardFromTable, basketBounds, List.find?, h1, h2, h3, h4, h5, h6, h7]
  by_cases h8 : s ≤ 1169
  · simp [resolveShard, shardFromTable, basketBounds, List.find?, h1, h2, h3, h4, h5, h6, h7, h8]
  by_cases h9 : s ≤ 1313
  · simp [resolveShard, shardFromTable, basketBounds, List.find?, h1, h2, h3, h4, h5, h6, h7, h8, h9]
  by_cases h10 : s ≤ 1601
  · simp [resolveShard, shardFromTable, basketBounds, List.find?, h1, h2, h3, h4, h5, h6, h7, h8, h9, h10]
  by_cases h11 : s ≤ 1655
  · simp [resolveShard, shardFromTable, basketBounds, List.find?, h1, h2, h3, h4, h5, h6, h7, h8, h9, h10, h11]
  by_cases h12 : s ≤ 1919
  · simp [resolveShard, shardFromTable, basketBounds, List.find?, h1, h2, h3, h4, h5, h6, h7, h8, h9, h10, h11, h12]
  by_cases h13 : s ≤ 2045
  · simp [resolveShard, shardFromTable, basketBounds, List.find?, h1, h2, h3, h4, h5, h6, h7, h8, h9, h10, h11, h12, h13]
  by_cases h14 : s ≤ 2189
  · simp [resolveShard, shardFromTable, basketBounds, List.find?, h1, h2, h3, h4, h5, h6, h7, h8, h9, h10, h11, h12, h13, h14]
  by_cases h15 : s ≤ 2405
  · simp [resolveShard, shardFromTable, basketBounds, List.find?, h1, h2, h3, h4, h5, h6, h7, h8, h9, h10, h11, h12, h13, h14, h15]
  by_cases h16 : s ≤ 2621
  · simp [resolveShard, shardFromTable, basketBounds, List.find?, h1, h2, h3, h4, h5, h6, h7, h8, h9, h10, h11, h12, h13, h14, h15, h16]
  by_cases h17 : s ≤ 2837
  · simp [resolveShard, shardFromTable, basketBounds, List.find?, h1, h2, h3, h4, h5, h6, h7, h8, h9, h10, h11, h12, h13, h14, h15, h16, h17]
  by_cases h18 : s ≤ 3053
  · simp [resolveShard, shardFromTable, basketBounds, List.find?, h1, h2, h3, h4, h5, h6, h7, h8, h9, h10, h11, h12, h13, h14, h15, h16, h17, h18]
  by_cases h19 : s ≤ 3269
  · simp [resolveShard, shardFromTable, basketBounds, List.find?, h1, h2, h3, h4, h5, h6, h7, h8, h9, h10, h11, h12, h13, h14, h15, h16, h17, h18, h19]
  by_cases h20 : s ≤ 3485
  · simp [resolveShard, shardFromTable, basketBounds, List.find?, h1, h2, h3, h4, h5, h6, h7, h8, h9, h10, h11, h12, h13, h14, h15, h16, h17, h18, h19, h20]
  by_cases h21 : s ≤ 3701
  · simp [resolveShard, shardFromTable, basketBounds, List.find?, h1, h2, h3, h4, h5, h6, h7, h8, h9, h10, h11, h12, h13, h14, h15, h16, h17, h18, h19, h20, h21]
  by_cases h22 : s ≤ 3917
  · simp [resolveShard, shardFromTable, basketBounds, List.find?, h1, h2, h3, h4, h5, h6, h7, h8, h9, h10, h11, h12, h13, h14, h15, h16, h17, h18, h19, h20, h21, h22]
  by_cases h23 : s ≤ 4133
  · simp [resolveShard, shardFromTable, basketBounds, List.find?, h1, h2, h3, h4, h5, h6, h7, h8, h9, h10, h11, h12, h13, h14, h15, h16, h17, h18, h19, h20, h21, h22, h23]
  by_cases h24 : s ≤ 4349
  · simp [resolveShard, shardFromTable, basketBounds, List.find?, h1, h2, h3, h4, h5, h6, h7, h8, h9, h10, h11, h12, h13, h14, h15, h16, h17, h18, h19, h20, h21, h22, h23, h24]
  by_cases h25 : s ≤ 4565
  · simp [resolveShard, shardFromTable, basketBounds, List.find?, h1, h2, h3, h4, h5, h6, h7, h8, h9, h10, h11, h12, h13, h14, h15, h16, h17, h18, h19, h20, h21, h22, h23, h24, h25]
  · simp [resolveShard, shardFromTable, basketBounds, List.find?, h1, h2, h3, h4, h5, h6, h7, h8, h9, h10, h11, h12, h13, h14, h15, h16, h17, h18, h19, h20, h21, h22, h23, h24, h25]


/-! ## Position-scanner lemmas -/

/-- A page without the target id never triggers the early return. -/
theorem scanPage_eq_none_of_not_mem (pid : Nat) (l : List Nat) (h : pid ∉ l) :
    ∀ pos, scanPage pid pos l = none := by
  induction l with
  | nil => intro pos; rfl
  | cons p rest ih =>
    intro pos
    simp only [List.mem_cons, not_or] at h
    simp only [scanPage]
    rw [if_neg fun hpe => h.1 hpe.symm]
    exact ih h.2 (pos + 1)

/-- The early-return value strictly exceeds the running counter it started
from. -/
theorem scanPage_some_lt (pid : Nat) (l : List Nat) :
    ∀ pos r, scanPage pid pos l = some r → pos < r := by
  induction l with
  | nil => intro pos r h; simp [scanPage] at h
  | cons p rest ih =>
    intro pos r h
    simp only [scanPage] at h
    split at h
    · injection h with h; omega
    · have := ih (pos + 1) r h; omega

/-- The page loop yields the sentinel or a value above the running counter. -/
theorem findPositionGo_fst (feed : Nat → Option (List Nat)) (pid : Nat) :
    ∀ n page pos req, (findPositionGo feed pid n page pos req).1 = -1 ∨
      (findPositionGo feed pid n page pos req).1 > 0 := by
  intro n
  induction n with
  | zero => intro page pos req; left; rfl
  | succ m ih =>
    intro page pos req
    rcases hf : feed page with _ | products
    · left; simp [findPositionGo, hf]
    · rcases hs : scanPage pid pos products with _ | r
      · by_cases he : products.isEmpty
        · left; simp [findPositionGo, hf, hs, he]
        · simpa [findPositionGo, hf, hs, he] using
            ih (page + 1) (pos + products.length) (req + 1)
      · right
        have hlt := scanPage_some_lt pid products pos r hs
        simp only [findPositionGo, hf, hs]
        omega

/-- The page loop issues at most one request per remaining iteration. -/
theorem findPositionGo_requests_le (feed : Nat → Option (List Nat)) (pid : Nat) :
    ∀ n page pos req, (findPositionGo feed pid n page pos req).2 ≤ req + n := by
  intro n
  induction n with
  | zero => intro page pos req; simp [findPositionGo]
  | succ m ih =>
    intro page pos req
    rcases hf : feed page with _ | products
    · simp only [findPositionGo, hf]; omega
    · rcases hs : scanPage pid pos products with _ | r
      · by_cases he : products.isEmpty
        · simp [findPositionGo, hf, hs, he]
        · have := ih (page + 1) (pos + products.length) (req + 1)
          simp [findPositionGo, hf, hs, he]
          omega
      · simp only [findPositionGo, hf, hs]; omega

/-- The result only depends on the feed at the pages the loop may visit. -/
theorem findPositionGo_congrFeed (pid : Nat) :
    ∀ (n page pos req : Nat) (feed fd : Nat → Option (List Nat)),
      (∀ p, page ≤ p → p < page + n → feed p = fd p) →
      findPositionGo feed pid n page pos req = findPositionGo fd pid n page pos req := by
  intro n
  induction n with
  | zero => intro page pos req feed fd _; rfl
  | succ m ih =>
    intro page pos req feed fd hagree
    have hpage : feed page = fd page := hagree page le_rfl (by omega)
    rcases hf : fd page with _ | products
    · simp [findPositionGo, hpage, hf]
    · rcases hs : scanPage pid pos products with _ | r
      · by_cases he : products.isEmpty
        · simp [findPositionGo, hpage, hf, hs, he]
        · simp only [findPositionGo, hpage, hf, hs, he, Bool.false_eq_true, if_false]
          exact ih (page + 1) (pos + products.length) (req + 1) feed fd
            (fun p h1 h2 => hagree p (by omega) (by omega))
      · simp [findPositionGo, hpage, hf, hs]

/-- Nonempty pages never containing the target drive the loop to the
sentinel. -/
theorem findPositionGo_absent (feed : Nat → Option (List Nat)) (pid : Nat) :
    ∀ n page pos req,
      (∀ p, page ≤ p → p < page + n → ∃ l, feed p = some l ∧ l ≠ [] ∧ pid ∉ l) →
      (findPositionGo feed pid n page pos req).1 = -1 := by
  intro n
  induction n with
  | zero => intro page pos req _; rfl
  | succ m ih =>
    intro page pos req h
    obtain ⟨l, hf, hne, hnm⟩ := h page le_rfl (by omega)
    have hs := scanPage_eq_none_of_not_mem pid l hnm pos
    have he : l.isEmpty = false := by
      cases l
      · exact absurd rfl hne
      · rfl
    simp only [findPositionGo, hf, hs, he, Bool.false_eq_true, if_false]
    exact ih (page + 1) (pos + l.length) (req + 1)
      (fun p h1 h2 => h p (by omega) (by omega))


/-! ## Claim theorems -/

/-- C1: shard resolution is total and deterministic; the card URL's volume
segment is the decimal string of `id // 100000` and its part segment the
decimal string of `id // 1000`; the shard code is the first matching bound of
the fixed ascending table over `s = id // 100000`, with catch-all `"26"`
above the last bound; `s = 143` maps to `"01"` and `s = 144` to `"02"`. -/
theorem C1_shard_resolution :
    (∀ (region : String) (article_id : Nat),
      get_card_url region article_id =
        "https://basket-" ++ resolve_basket_id article_id ++ ".wbbasket.ru/vol" ++
          toString (article_id / 100000) ++ "/part" ++ toString (article_id / 1000) ++
          "/" ++ toString article_id ++ "/info/" ++ region ++ "/card.json") ∧
    (∀ article_id : Nat,
      resolve_basket_id article_id = shardFromTable (article_id / 100000)) ∧
    (∀ article_id : Nat, article_id / 100000 = 143 →
      resolve_basket_id article_id = "01") ∧
    (∀ article_id : Nat, article_id / 100000 = 144 →
      resolve_basket_id article_id = "02") ∧
    (∀ article_id : Nat, 4565 < article_id / 100000 →
      resolve_basket_id article_id = "26") := by
  refine ⟨fun region id => rfl, fun id => resolveShard_eq_table _, ?_, ?_, ?_⟩
  · intro id h
    unfold resolve_basket_id
    rw [h]
    decide
  · intro id h
    unfold resolve_basket_id
    rw [h]
    decide
  · intro id h
    unfold resolve_basket_id resolveShard
    rw [if_neg (by omega : ¬ id / 100000 ≤ 143)]
    rw [if_neg (by omega : ¬ id / 100000 ≤ 287)]
    rw [if_neg (by omega : ¬ id / 100000 ≤ 431)]
    rw [if_neg (by omega : ¬ id / 100000 ≤ 719)]
    rw [if_neg (by omega : ¬ id / 100000 ≤ 1007)]
    rw [if_neg (by omega : ¬ id / 100000 ≤ 1061)]
    rw [if_neg (by omega : ¬ id / 100000 ≤ 1115)]
    rw [if_neg (by omega : ¬ id / 100000 ≤ 1169)]
    rw [if_neg (by omega : ¬ id / 100000 ≤ 1313)]
    rw [if_neg (by omega : ¬ id / 100000 ≤ 1601)]
    rw [if_neg (by omega : ¬ id / 100000 ≤ 1655)]
    rw [if_neg (by omega : ¬ id / 100000 ≤ 1919)]
    rw [if_neg (by omega : ¬ id / 100000 ≤ 2045)]
    rw [if_neg (by omega : ¬ id / 100000 ≤ 2189)]
    rw [if_neg (by omega : ¬ id / 100000 ≤ 2405)]
    rw [if_neg (by omega : ¬ id / 100000 ≤ 2621)]
    rw [if_neg (by omega : ¬ id / 100000 ≤ 2837)]
    rw [if_neg (by omega : ¬ id / 100000 ≤ 3053)]
    rw [if_neg (by omega : ¬ id / 100000 ≤ 3269)]
    rw [if_neg (by omega : ¬ id / 100000 ≤ 3485)]
    rw [if_neg (by omega : ¬ id / 100000 ≤ 3701)]
    rw [if_neg (by omega : ¬ id / 100000 ≤ 3917)]
    rw [if_neg (by omega : ¬ id / 100000 ≤ 4133)]
    rw [if_neg (by omega : ¬ id / 100000 ≤ 4349)]
    rw [if_neg (by omega : ¬ id / 100000 ≤ 4565)]

/-- Witness for C1: ids at the `143`/`144` boundary and one above the last
bound. -/
theorem C1_shard_resolution_witness :
    resolve_basket_id 14399999 = "01" ∧ resolve_basket_id 14400000 = "02" ∧
      resolve_basket_id 456600000 = "26" :=
  ⟨C1_shard_resolution.2.2.1 14399999 (by decide),
   C1_shard_resolution.2.2.2.1 14400000 (by decide),
   C1_shard_resolution.2.2.2.2 456600000 (by decide)⟩

/-- C2: `find_product_position` counts rank cumulatively across concatenated
pages: 3rd item of the first page gives 3; 2nd item of the second page after
a full first page of 10 gives 12; a target absent from `maxPages` nonempty
pages gives the sentinel; an empty first page gives the sentinel after a
single page request. -/
theorem C2_cumulative_rank :
    (∀ (feed : Nat → Option (List Nat)) (maxPages t a b : Nat) (rest : List Nat),
      1 ≤ maxPages → feed 1 = some (a :: b :: t :: rest) → a ≠ t → b ≠ t →
      find_product_position feed maxPages t = 3) ∧
    (∀ (feed : Nat → Option (List Nat)) (maxPages t a : Nat) (l1 r2 : List Nat),
      2 ≤ maxPages → feed 1 = some l1 → l1.length = 10 → t ∉ l1 →
      feed 2 = some (a :: t :: r2) → a ≠ t →
      find_product_position feed maxPages t = 12) ∧
    (∀ (feed : Nat → Option (List Nat)) (maxPages t : Nat),
      (∀ p, 1 ≤ p → p ≤ maxPages → ∃ l, feed p = some l ∧ l ≠ [] ∧ t ∉ l) →
      find_product_position feed maxPages t = -1) ∧
    (∀ (feed : Nat → Option (List Nat)) (maxPages t : Nat),
      1 ≤ maxPages → feed 1 = some [] →
      find_product_position feed maxPages t = -1 ∧
        find_position_requests feed maxPages t = 1) := by
  refine ⟨?_, ?_, ?_, ?_⟩
  · intro feed maxPages t a b rest hmp hf ha hb
    obtain ⟨m, rfl⟩ : ∃ m, maxPages = m + 1 := ⟨maxPages - 1, by omega⟩
    simp [find_product_position, findPositionGo, hf, scanPage, ha, hb]
  · intro feed maxPages t a l1 r2 hmp hf1 hlen hnm hf2 ha
    obtain ⟨m, rfl⟩ : ∃ m, maxPages = m + 2 := ⟨maxPages - 2, by omega⟩
    have hs1 := scanPage_eq_none_of_not_mem t l1 hnm 0
    have he1 : l1.isEmpty = false := by
      cases l1
      · simp at hlen
      · rfl
    simp [find_product_position, findPositionGo, hf1, hs1, he1, hlen, hf2,
      scanPage, ha]
  · intro feed maxPages t h
    exact findPositionGo_absent feed t maxPages 1 0 0
      (fun p h1 h2 => h p h1 (by omega))
  · intro feed maxPages t hmp hf
    obtain ⟨m, rfl⟩ : ∃ m, maxPages = m + 1 := ⟨maxPages - 1, by omega⟩
    constructor
    · simp [find_product_position, findPositionGo, hf, scanPage]
    · simp [find_position_requests, findPositionGo, hf, scanPage]

/-- Witness for C2: four concrete feeds exercising the four scenarios. -/
theorem C2_cumulative_rank_witness :
    find_product_position (fun p => if p = 1 then some [5, 6, 7] else none) 5 7 = 3 ∧
    find_product_position
      (fun p => if p = 1 then some [1, 2, 3, 4, 5, 6, 8, 9, 10, 11]
                else if p = 2 then some [12, 7, 13] else none) 5 7 = 12 ∧
    find_product_position (fun _ => some [1, 2]) 5 7 = -1 ∧
    (find_product_position (fun _ => some []) 5 7 = -1 ∧
      find_position_requests (fun _ => some []) 5 7 = 1) :=
  ⟨C2_cumulative_rank.1 _ 5 7 5 6 [] (by decide) rfl (by decide) (by decide),
   C2_cumulative_rank.2.1 _ 5 7 12 [1, 2, 3, 4, 5, 6, 8, 9, 10, 11] [13]
     (by decide) rfl (by decide) (by decide) rfl (by decide),
   C2_cumulative_rank.2.2.1 _ 5 7
     (fun p _ _ => ⟨[1, 2], rfl, by decide, by decide⟩),
   C2_cumulative_rank.2.2.2 _ 5 7 (by decide) rfl⟩

/-- C7: the page loop of `find_product_position` terminates within
`maxPages` iterations: it issues at most `maxPages` page requests, and its
result depends only on the feed's pages `1..maxPages`. -/
theorem C7_findPosition_terminates :
    ∀ (feed : Nat → Option (List Nat)) (maxPages product_id : Nat),
      find_position_requests feed maxPages product_id ≤ maxPages ∧
      (∀ fd : Nat → Option (List Nat),
        (∀ p, 1 ≤ p → p ≤ maxPages → feed p = fd p) →
        find_product_position feed maxPages product_id =
          find_product_position fd maxPages product_id) := by
  intro feed maxPages pid
  constructor
  · simpa using findPositionGo_requests_le feed pid maxPages 1 0 0
  · intro fd hagree
    unfold find_product_position
    rw [findPositionGo_congrFeed pid maxPages 1 0 0 feed fd
      (fun p h1 h2 => hagree p h1 (by omega))]

/-- Witness for C7: a concrete feed and an agreeing feed. -/
theorem C7_findPosition_terminates_witness :
    find_position_requests (fun _ => some [1, 2]) 5 7 ≤ 5 ∧
      find_product_position (fun _ => some [1, 2]) 5 7 =
        find_product_position (fun p => if p ≤ 5 then some [1, 2] else none) 5 7 :=
  ⟨(C7_findPosition_terminates (fun _ => some [1, 2]) 5 7).1,
   (C7_findPosition_terminates (fun _ => some [1, 2]) 5 7).2
     (fun p => if p ≤ 5 then some [1, 2] else none)
     (fun p _ hp2 => by simp [hp2])⟩

/-- C10: the scanner returns the sentinel `-1` or a positive rank, never 0,
so the orchestrator's `position if position > 0 else None` mapping yields
`none` exactly when the scanner reported not-found. -/
theorem C10_sentinel_or_positive :
    ∀ (feed : Nat → Option (List Nat)) (maxPages product_id : Nat),
      (find_product_position feed maxPages product_id = -1 ∨
        find_product_position feed maxPages product_id > 0) ∧
      ((if find_product_position feed maxPages product_id > 0 then
          some (find_product_position feed maxPages product_id) else none) = none ↔
        find_product_position feed maxPages product_id = -1) := by
  intro feed maxPages pid
  have h : find_product_position feed maxPages pid = -1 ∨
      find_product_position feed maxPages pid > 0 :=
    findPositionGo_fst feed pid maxPages 1 0 0
  refine ⟨h, ?_⟩
  rcases h with h | h
  · simp [h]
  · have hne : ¬ find_product_position feed maxPages pid = -1 := by omega
    simp [h, hne]


/-- C3: with `max_retries = 3`, an operation failing twice then succeeding
returns the success after exactly 2 backoff delays; an operation failing four
times propagates the fourth failure after exactly 3 backoff delays. -/
theorem C3_retry_counts :
    (∀ (E A : Type) (ops : Nat → Except E A) (e0 e1 : E) (a : A),
      ops 0 = .error e0 → ops 1 = .error e1 → ops 2 = .ok a →
      async_retry_run 3 ops = (.ok a, 2)) ∧
    (∀ (E A : Type) (ops : Nat → Except E A) (e0 e1 e2 e3 : E),
      ops 0 = .error e0 → ops 1 = .error e1 → ops 2 = .error e2 →
      ops 3 = .error e3 →
      async_retry_run 3 ops = (.error e3, 3)) := by
  constructor
  · intro E A ops e0 e1 a h0 h1 h2
    simp [async_retry_run, retryGo, h0, h1, h2]
  · intro E A ops e0 e1 e2 e3 h0 h1 h2 h3
    simp [async_retry_run, retryGo, h0, h1, h2, h3]

/-- Witness for C3: concrete operation outcome sequences. -/
theorem C3_retry_counts_witness :
    async_retry_run 3 (fun i => if i < 2 then Except.error i else Except.ok "yes") =
      (Except.ok "yes", 2) ∧
    async_retry_run 3 (fun i => (Except.error i : Except Nat String)) =
      (Except.error 3, 3) :=
  ⟨C3_retry_counts.1 Nat String _ 0 1 "yes" rfl rfl rfl,
   C3_retry_counts.2 Nat String _ 0 1 2 3 rfl rfl rfl rfl⟩

/-- C4: the proxy session token is the first 11 hex characters of the MD5
digest of `"{user_id}_{bucket}"` with `bucket = now_seconds / (60 *
timeout_minutes)`, so two calls whose timestamps fall in the same window
produce identical tokens. -/
theorem C4_session_token :
    (∀ timeout_minutes user_id now_seconds : Nat,
      generate_session_id timeout_minutes user_id now_seconds =
        (md5_hexdigest (toString user_id ++ "_" ++
          toString (now_seconds / (60 * timeout_minutes)))).take 11) ∧
    (∀ timeout_minutes user_id t1 t2 : Nat,
      t1 / (60 * timeout_minutes) = t2 / (60 * timeout_minutes) →
      generate_session_id timeout_minutes user_id t1 =
        generate_session_id timeout_minutes user_id t2) := by
  constructor
  · intro m u n
    rfl
  · intro m u t1 t2 h
    simp [generate_session_id, get_proxy_hash, h]

/-- Witness for C4: two timestamps in the same 1-minute window. -/
theorem C4_session_token_witness :
    generate_session_id 1 42 0 = generate_session_id 1 42 59 :=
  C4_session_token.2 1 42 0 59 (by decide)

/-- C5: on a URL from which no article id can be parsed, the orchestrator
returns (without failing) a result with empty keyword and result lists and
the placeholder details: id 0, name "Товар не найден", and zero price,
rating and feedbacks. -/
theorem C5_unparseable_placeholder :
    ∀ (detail_resp : Option DetailResponse) (feeds : String → Nat → Option (List Nat))
      (max_search_pages : Nat) (product_url : String) (keywords : List String),
      extract_article_id product_url = none →
      analyze_product_keywords detail_resp feeds max_search_pages product_url keywords =
        { product := { id := 0, name := "Товар не найден", brand := "", price := 0,
                       rating := 0, feedbacks := 0, image_url := "",
                       url := product_url },
          found_keywords := [], search_results := [] } := by
  intro resp feeds mp url kws h
  simp [analyze_product_keywords, h, placeholder_details]

/-- Witness for C5: a URL without the catalog pattern. -/
theorem C5_unparseable_placeholder_witness :
    analyze_product_keywords none (fun _ _ => none) 5 "https://example.com" ["мышь"] =
      { product := { id := 0, name := "Товар не найден", brand := "", price := 0,
                     rating := 0, feedbacks := 0, image_url := "",
                     url := "https://example.com" },
        found_keywords := [], search_results := [] } :=
  C5_unparseable_placeholder none (fun _ _ => none) 5 "https://example.com" ["мышь"] rfl

/-- C9: the extractor maps the catalog segment "0" to the integer 0; the
orchestrator's falsy check sends extracted 0 to the same placeholder result
as an unparseable URL; analysis with detail fetching and position scanning
runs exactly for extracted ids that are at least 1. -/
theorem C9_zero_id_like_unparseable :
    extract_article_id "https://www.wildberries.ru/catalog/0/detail.aspx" = some 0 ∧
    (∀ (detail_resp : Option DetailResponse) (feeds : String → Nat → Option (List Nat))
       (max_search_pages : Nat) (product_url : String) (keywords : List String),
      extract_article_id product_url = some 0 →
      analyze_product_keywords detail_resp feeds max_search_pages product_url keywords =
        { product := placeholder_details product_url, found_keywords := [],
          search_results := [] }) ∧
    (∀ (detail_resp : Option DetailResponse) (feeds : String → Nat → Option (List Nat))
       (max_search_pages : Nat) (product_url : String) (keywords : List String)
       (article_id : Nat),
      extract_article_id product_url = some article_id → 0 < article_id →
      analyze_product_keywords detail_resp feeds max_search_pages product_url keywords =
        analyze_core detail_resp feeds max_search_pages article_id product_url
          keywords) := by
  refine ⟨rfl, ?_, ?_⟩
  · intro resp feeds mp url kws h
    simp [analyze_product_keywords, h]
  · intro resp feeds mp url kws aid h hpos
    have hne : aid ≠ 0 := by omega
    simp [analyze_product_keywords, h, hne]

/-- Witness for C9: the zero-id URL takes the placeholder path, a positive-id
URL takes the analysis path. -/
theorem C9_zero_id_like_unparseable_witness :
    analyze_product_keywords none (fun _ _ => none) 5
        "https://www.wildberries.ru/catalog/0/detail.aspx" ["мышь"] =
      { product := placeholder_details
          "https://www.wildberries.ru/catalog/0/detail.aspx",
        found_keywords := [], search_results := [] } ∧
    analyze_product_keywords none (fun _ _ => none) 5
        "https://www.wildberries.ru/catalog/123/detail.aspx" ["мышь"] =
      analyze_core none (fun _ _ => none) 5 123
        "https://www.wildberries.ru/catalog/123/detail.aspx" ["мышь"] :=
  ⟨C9_zero_id_like_unparseable.2.1 none (fun _ _ => none) 5
     "https://www.wildberries.ru/catalog/0/detail.aspx" ["мышь"] rfl,
   C9_zero_id_like_unparseable.2.2 none (fun _ _ => none) 5
     "https://www.wildberries.ru/catalog/123/detail.aspx" ["мышь"] 123 rfl
     (by decide)⟩


/-- C6: for a URL yielding a positive article id, the result's keyword list
is the exact input list, its results list has the same length, and the i-th
result pairs the i-th keyword with the scanner's rank when positive and with
`none` otherwise. -/
theorem C6_results_align_with_keywords :
    ∀ (detail_resp : Option DetailResponse) (feeds : String → Nat → Option (List Nat))
      (max_search_pages : Nat) (product_url : String) (keywords : List String)
      (article_id : Nat),
      extract_article_id product_url = some article_id → 0 < article_id →
      (analyze_product_keywords detail_resp feeds max_search_pages product_url
          keywords).found_keywords = keywords ∧
      (analyze_product_keywords detail_resp feeds max_search_pages product_url
          keywords).search_results.length = keywords.length ∧
      (∀ i, i < keywords.length →
        (analyze_product_keywords detail_resp feeds max_search_pages product_url
            keywords).search_results[i]? =
          keywords[i]?.map (fun kw =>
            { keyword := kw
              product_position :=
                if find_product_position (feeds kw) max_search_pages article_id > 0
                then some (find_product_position (feeds kw) max_search_pages
                  article_id)
                else none })) := by
  intro resp feeds mp url kws aid hx hpos
  have hne : aid ≠ 0 := by omega
  have hA : analyze_product_keywords resp feeds mp url kws =
      analyze_core resp feeds mp aid url kws := by
    simp [analyze_product_keywords, hx, hne]
  rw [hA]
  refine ⟨rfl, by simp [analyze_core], ?_⟩
  intro i hi
  simp [analyze_core, List.getElem?_map]

/-- Witness for C6: a found keyword maps to its rank, a not-found keyword to
`none`, in input order. -/
theorem C6_results_align_with_keywords_witness :
    (analyze_product_keywords none
        (fun kw _ => if kw = "мышь" then some [9, 182803851] else some [])
        5 "https://www.wildberries.ru/catalog/182803851/detail.aspx"
        ["мышь", "клавиатура"]).found_keywords = ["мышь", "клавиатура"] ∧
    (analyze_product_keywords none
        (fun kw _ => if kw = "мышь" then some [9, 182803851] else some [])
        5 "https://www.wildberries.ru/catalog/182803851/detail.aspx"
        ["мышь", "клавиатура"]).search_results[0]? =
      some { keyword := "мышь", product_position := some 2 } ∧
    (analyze_product_keywords none
        (fun kw _ => if kw = "мышь" then some [9, 182803851] else some [])
        5 "https://www.wildberries.ru/catalog/182803851/detail.aspx"
        ["мышь", "клавиатура"]).search_results[1]? =
      some { keyword := "клавиатура", product_position := none } := by
  have h := C6_results_align_with_keywords none
    (fun kw _ => if kw = "мышь" then some [9, 182803851] else some [])
    5 "https://www.wildberries.ru/catalog/182803851/detail.aspx"
    ["мышь", "клавиатура"] 182803851 rfl (by decide)
  refine ⟨h.1, ?_, ?_⟩
  · have h0 := h.2.2 0 (by decide)
    rw [h0]
    decide
  · have h1 := h.2.2 1 (by decide)
    rw [h1]
    decide

/-- C8: the detail price is the first size entry's minor-unit `product`
price divided by 100 — exactly, so 129900 yields 1299 — and defaults to 0
when the sizes array is missing or empty or its first entry lacks a price
field. -/
theorem C8_price_mapping :
    (∀ (product_url : String) (article_id : Nat) (p : RawProduct)
       (ps : List RawProduct) (sz : SizeEntry) (szs : List SizeEntry)
       (pd : PriceEntry) (minor : Int),
      extract_article_id product_url = some article_id → article_id ≠ 0 →
      p.sizes? = some (sz :: szs) → sz.price? = some pd →
      pd.product? = some minor →
      (get_product_details (some ⟨p :: ps⟩) product_url).map ProductDetails.price =
        some ((minor : Rat) / 100)) ∧
    (∀ (product_url : String) (article_id : Nat) (p : RawProduct)
       (ps : List RawProduct) (sz : SizeEntry) (szs : List SizeEntry)
       (pd : PriceEntry),
      extract_article_id product_url = some article_id → article_id ≠ 0 →
      p.sizes? = some (sz :: szs) → sz.price? = some pd →
      pd.product? = some 129900 →
      (get_product_details (some ⟨p :: ps⟩) product_url).map ProductDetails.price =
        some 1299) ∧
    (∀ (product_url : String) (article_id : Nat) (p : RawProduct)
       (ps : List RawProduct),
      extract_article_id product_url = some article_id → article_id ≠ 0 →
      p.sizes? = none →
      (get_product_details (some ⟨p :: ps⟩) product_url).map ProductDetails.price =
        some 0) ∧
    (∀ (product_url : String) (article_id : Nat) (p : RawProduct)
       (ps : List RawProduct),
      extract_article_id product_url = some article_id → article_id ≠ 0 →
      p.sizes? = some [] →
      (get_product_details (some ⟨p :: ps⟩) product_url).map ProductDetails.price =
        some 0) ∧
    (∀ (product_url : String) (article_id : Nat) (p : RawProduct)
       (ps : List RawProduct) (sz : SizeEntry) (szs : List SizeEntry),
      extract_article_id product_url = some article_id → article_id ≠ 0 →
      p.sizes? = some (sz :: szs) → sz.price? = none →
      (get_product_details (some ⟨p :: ps⟩) product_url).map ProductDetails.price =
        some 0) := by
  refine ⟨?_, ?_, ?_, ?_, ?_⟩
  · intro url aid p ps sz szs pd minor hx hne hs hp hm
    simp [get_product_details, hx, hne, product_price, hs, hp, hm]
  · intro url aid p ps sz szs pd hx hne hs hp hm
    simp [get_product_details, hx, hne, product_price, hs, hp, hm]
    norm_num
  · intro url aid p ps hx hne hs
    simp [get_product_details, hx, hne, product_price, hs]
  · intro url aid p ps hx hne hs
    simp [get_product_details, hx, hne, product_price, hs]
  · intro url aid p ps sz szs hx hne hs hp
    simp [get_product_details, hx, hne, product_price, hs, hp]

/-- Witness for C8: a concrete detail response with minor-unit price 129900
and one with a missing sizes array. -/
theorem C8_price_mapping_witness :
    (get_product_details
        (some ⟨[{ id? := some 5, name? := some "n", brand? := some "b",
                  sizes? := some [{ price? := some { product? := some 129900 } }],
                  reviewRating? := some 4, feedbacks? := some 10 }]⟩)
        "https://www.wildberries.ru/catalog/123/detail.aspx").map
      ProductDetails.price = some 1299 ∧
    (get_product_details
        (some ⟨[{ id? := some 5, name? := some "n", brand? := some "b",
                  sizes? := none, reviewRating? := some 4, feedbacks? := some 10 }]⟩)
        "https://www.wildberries.ru/catalog/123/detail.aspx").map
      ProductDetails.price = some 0 :=
  ⟨C8_price_mapping.2.1 "https://www.wildberries.ru/catalog/123/detail.aspx" 123 _
     [] _ [] _ rfl (by decide) rfl rfl rfl,
   C8_price_mapping.2.2.1 "https://www.wildberries.ru/catalog/123/detail.aspx" 123 _
     [] rfl (by decide) rfl⟩

end WB
